import Mathlib

/-!
Shallow embedding of the `lisfan/logger` Logger class (final revision:
the one with static `rules`, `configRules`, the `LOGGER_RULES`
environment override and the `IS_DEV` dev-mode flag).

JavaScript values are modelled by the inductive `JSVal`; plain objects
with string keys are modelled by association lists (`Obj`) with
first-match lookup (`getV`), and the object spread
`\x7b...a, ...b\x7d` by `spread a b` (entries of `b` win on collision).
-/

/-- A JavaScript value, as far as the logger inspects values:
strings, numbers (the logger only ever meets integral ones), booleans,
null, undefined, arrays, plain objects and DOM element references. -/
inductive JSVal where
  | str (s : String)
  | num (n : Int)
  | bool (b : Bool)
  | null
  | undef
  | array (elems : List JSVal)
  | plainObj (fields : List (String × JSVal))
  | element (tag : String)

/-- A JavaScript plain object with string keys: an association list.
Earlier entries are shadowed by later-prepended ones via `getV`. -/
abbrev Obj : Type := List (String × JSVal)

/-- Property read `o[key]`: first matching entry wins, absence is
JavaScript `undefined`, modelled as `none`. -/
def getV : Obj → String → Option JSVal
  | [], _ => none
  | (k, v) :: rest, key => if k = key then some v else getV rest key

/-- Object spread `\x7b...a, ...b\x7d`: a new object in which entries of
`b` win over entries of `a` on key collision. -/
def spread (a b : Obj) : Obj := b ++ a

/-- Strict equality `status === false` on a possibly-undefined value. -/
def strictEqFalse : Option JSVal → Bool
  | some (.bool false) => true
  | _ => false

/-- `validation.isBoolean`: type-tag check for booleans. -/
def isBooleanV : JSVal → Bool
  | .bool _ => true
  | _ => false

/-- `validation.isArray`: type-tag check for arrays. -/
def isArray : JSVal → Bool
  | .array _ => true
  | _ => false

/-- `validation.isPlainObject`: type-tag check for plain objects.
An array is an exotic object whose prototype is not `Object.prototype`,
so it is never a plain object. -/
def isPlainObject : JSVal → Bool
  | .plainObj _ => true
  | _ => false

/-- `validation.isElement`: type-tag check for DOM element references. -/
def isElement : JSVal → Bool
  | .element _ => true
  | _ => false

/-- JavaScript truthiness of the optional `method` argument of
`isActivated`: `undefined` and the empty string are falsy. -/
def methodTruthy : Option String → Bool
  | none => false
  | some m => m ≠ ""

mutual

/-- `v.toString()` on values where it succeeds, rendered as the host
renders them (`String(v)`); arrays join their elements with commas. -/
def jsToStr : JSVal → String
  | .str s => s
  | .num n => toString n
  | .bool b => if b then "true" else "false"
  | .null => "null"
  | .undef => "undefined"
  | .array es => jsJoinComma es
  | .plainObj _ => "[object Object]"
  | .element tag => "[object " ++ tag ++ "]"

/-- `Array.prototype.join` with the comma separator: `null` and
`undefined` elements render as the empty string. -/
def jsJoinComma : List JSVal → String
  | [] => ""
  | [v] => jsElemStr v
  | v :: rest => jsElemStr v ++ "," ++ jsJoinComma rest

/-- One element of an array during join: empty for `null`/`undefined`,
otherwise its string conversion. -/
def jsElemStr : JSVal → String
  | .null => ""
  | .undef => ""
  | .str s => s
  | .num n => toString n
  | .bool b => if b then "true" else "false"
  | .array es => jsJoinComma es
  | .plainObj _ => "[object Object]"
  | .element tag => "[object " ++ tag ++ "]"

end

/-- `v.toString()` as the logger calls it: raises a TypeError (here:
`none`) when `v` is `null` or `undefined`, succeeds otherwise. -/
def toStr? : JSVal → Option String
  | .null => none
  | .undef => none
  | v => some (jsToStr v)

/-- The process-wide state the Logger class consults: the dev-mode flag
`IS_DEV`, the environment override mapping read from the
`LOGGER_RULES` localStorage key, and the current static rules object. -/
structure Global where
  isDev : Bool
  envRules : Obj
  rules : Obj

/-- A Logger instance: its merged `$options`, of which the code reads
the namespace `name` and the `debug` flag. -/
structure Inst where
  name : String
  debug : Bool

/-- The static default options record `Logger.options`
(`name = "logger"`, `debug = true` initially). -/
structure Options where
  name : String
  debug : Bool

/-- A patch object passed to the static `Logger.config` call: each of
the two known keys may be present or absent. -/
structure OptPatch where
  name : Option String
  debug : Option Bool

namespace Logger

/-- The initial static state at process start: `Logger.rules` is seeded
with the `LOGGER_RULES` override object. -/
def initGlobal (isDev : Bool) (envRules : Obj) : Global :=
  { isDev := isDev, envRules := envRules, rules := envRules }

/-- `Logger.configRules(rules)`: overlay the new rules onto the stored
ones, then overlay the `LOGGER_RULES` environment override last. -/
def configRules (rules : Obj) (g : Global) : Global :=
  { g with rules := spread (spread g.rules rules) g.envRules }

/-- `Logger.config(options)`: merge the patch over the current static
default options (new entries win). -/
def config (p : OptPatch) (o : Options) : Options :=
  { name := (p.name).getD o.name, debug := (p.debug).getD o.debug }

/-- The documented initial static default options. -/
def defaultOptions : Options := { name := "logger", debug := true }

/-- The constructor: a string argument becomes the namespace over the
current static defaults; an options record is merged over them. -/
def mkLogger (arg : Sum String OptPatch) (o : Options) : Inst :=
  match arg with
  | .inl s => { name := s, debug := o.debug }
  | .inr p => { name := (p.name).getD o.name, debug := (p.debug).getD o.debug }

/-- `Logger#isActivated(method)`: dev-mode hard cutoff, then the
namespace rule, overridden by a boolean sub-namespace rule when a truthy
method name is given; an explicitly false status blocks output, and
finally a disabled instance `debug` flag blocks output. -/
def isActivated (g : Global) (self : Inst) (method : Option String) : Bool :=
  if !g.isDev then false
  else
    let status := getV g.rules self.name
    let status :=
      if methodTruthy method then
        match method with
        | some m =>
          match getV g.rules (self.name ++ "." ++ m) with
          | some sub => if isBooleanV sub then some sub else status
          | none => status
        | none => status
      else status
    if strictEqFalse status then false
    else if !self.debug then false
    else true

end Logger

/-- One forwarded call to the underlying console-like API:
`console[method](...args)`. -/
inductive ConsoleCall where
  | call (method : String) (args : List JSVal)

/-- The failure raised by a Logger method: either the intended
`Error(message)` built in `error`, or the TypeError the host raises
when `.toString()` is read off `null`/`undefined`. -/
inductive Thrown where
  | errorMsg (msg : String)
  | typeError
  deriving DecidableEq

namespace Logger

/-- DOM-element wrapping applied to each forwarded argument of the
formatted output methods: an element is wrapped in a one-element array. -/
def wrapElem (a : JSVal) : JSVal :=
  if isElement a then JSVal.array [a] else a

/-- `_actions.logProxyRun`: when activated for `method`, forward the
format string, the color style, an empty style and the (element-wrapped)
arguments to `console[method]`; otherwise forward nothing. The returned
effect is the list of forwarded console calls. -/
def logProxyRun (g : Global) (self : Inst) (method color : String)
    (args : List JSVal) : List ConsoleCall :=
  if !(isActivated g self (some method)) then []
  else
    [ConsoleCall.call method
      (JSVal.str ("%c[" ++ self.name ++ "]:%c")
        :: JSVal.str ("color: " ++ color)
        :: JSVal.str ""
        :: args.map wrapElem)]

/-- `_actions.proxyRun`: when activated for `method`, forward the
arguments unmodified to `console[method]`; otherwise forward nothing. -/
def proxyRun (g : Global) (self : Inst) (method : String)
    (args : List JSVal) : List ConsoleCall :=
  if isActivated g self (some method) then [ConsoleCall.call method args]
  else []

/-- `Logger#log`: the formatted output method with the default color. -/
def log (g : Global) (self : Inst) (args : List JSVal) : List ConsoleCall :=
  logProxyRun g self "log" "lightseagreen" args

/-- `Logger#table(data)`: fall back to `log` when the data is both an
array and a plain object, otherwise proxy to the underlying `table`. -/
def table (g : Global) (self : Inst) (data : JSVal) : List ConsoleCall :=
  if isArray data && isPlainObject data then log g self [data]
  else proxyRun g self "table" [data]

/-- `args.map((value) => value.toString())` with JavaScript evaluation
order: the first `null`/`undefined` argument raises before the rest are
converted, so the whole map yields `none`. -/
def toStrList? : List JSVal → Option (List String)
  | [] => some []
  | v :: rest =>
    match toStr? v with
    | none => none
    | some s =>
      match toStrList? rest with
      | none => none
      | some strs => some (s :: strs)

/-- `Logger#error(...args)`: compute the failure the method raises.
Each argument's `.toString()` runs in order; the first `null` or
`undefined` argument makes the host raise a TypeError before the
message is built, otherwise `Error` carries the space-joined message. -/
def error (args : List JSVal) : Thrown :=
  match toStrList? args with
  | some strs => Thrown.errorMsg (String.intercalate " " strs)
  | none => Thrown.typeError

/-- The control-flow outcome of `Logger#error`: the body ends in an
unconditional throw, so the call never produces a normal return. -/
def errorRun (args : List JSVal) : Except Thrown Unit :=
  Except.error (error args)

end Logger

/-- Lookup distributes over object concatenation: the left object is
consulted first, the right one only on absence. -/
theorem getV_append (a b : Obj) (k : String) :
    getV (a ++ b) k = match getV a k with
      | some v => some v
      | none => getV b k := by
  induction a with
  | nil => rfl
  | cons hd tl ih =>
    obtain ⟨hk, hv⟩ := hd
    by_cases h : hk = k
    · simp [getV, h]
    · simp [getV, h, ih]

/-- The conversion of the argument list fails as soon as one element
fails: if some argument's string conversion raises, the whole message
construction raises. -/
theorem toStrList_eq_none (args : List JSVal) (a : JSVal) (ha : a ∈ args)
    (hnone : toStr? a = none) : Logger.toStrList? args = none := by
  induction args with
  | nil => cases ha
  | cons hd tl ih =>
    rcases List.mem_cons.mp ha with h1 | h2
    · rw [h1] at hnone
      simp [Logger.toStrList?, hnone]
    · have htl : Logger.toStrList? tl = none := ih h2
      simp [Logger.toStrList?, htl]
      cases hh : toStr? hd <;> simp

/-- C1: when the global dev-mode flag is false, `isActivated` returns
false for every instance, every method argument and every rules
configuration. -/
theorem c1_dev_off_blocks_all (g : Global) (self : Inst)
    (method : Option String) (h : g.isDev = false) :
    Logger.isActivated g self method = false := by
  simp [Logger.isActivated, h]

theorem c1_witness :
    (Logger.initGlobal false [("request", JSVal.bool true)]).isDev = false
    ∧ Logger.isActivated (Logger.initGlobal false [("request", JSVal.bool true)])
        ⟨"request", true⟩ (some "log") = false :=
  ⟨rfl, c1_dev_off_blocks_all _ _ _ rfl⟩

/-- C2: an explicit boolean rule false for the sub-namespace
`name.method` makes `isActivated method` false for an instance with
that name, debug contemporaneously true and dev-mode on, whatever the
bare namespace rule says. -/
theorem c2_sub_rule_false_blocks (g : Global) (self : Inst) (m : String)
    (hdev : g.isDev = true) (_hdebug : self.debug = true) (hm : m ≠ "")
    (hsub : getV g.rules (self.name ++ "." ++ m) = some (JSVal.bool false)) :
    Logger.isActivated g self (some m) = false := by
  simp [Logger.isActivated, hdev, methodTruthy, hm, hsub, isBooleanV,
    strictEqFalse]

theorem c2_witness :
    ("logger" : String) ≠ ""
    ∧ getV [("request.log", JSVal.bool false), ("request", JSVal.bool true)]
        ("request" ++ "." ++ "log") = some (JSVal.bool false)
    ∧ getV [("request.log", JSVal.bool false), ("request", JSVal.bool true)]
        "request" = some (JSVal.bool true)
    ∧ Logger.isActivated
        ⟨true, [], [("request.log", JSVal.bool false), ("request", JSVal.bool true)]⟩
        ⟨"request", true⟩ (some "log") = false :=
  ⟨by decide, rfl, rfl,
    c2_sub_rule_false_blocks
      ⟨true, [], [("request.log", JSVal.bool false), ("request", JSVal.bool true)]⟩
      ⟨"request", true⟩ "log" rfl rfl (by decide) rfl⟩

/-- C3: an explicit boolean rule true for the sub-namespace
`name.method` makes `isActivated method` true for an instance with that
name, debug true and dev-mode on, even when the bare namespace rule is
false (the more specific rule overrides it). -/
theorem c3_sub_rule_true_enables (g : Global) (self : Inst) (m : String)
    (hdev : g.isDev = true) (hdebug : self.debug = true) (hm : m ≠ "")
    (hsub : getV g.rules (self.name ++ "." ++ m) = some (JSVal.bool true)) :
    Logger.isActivated g self (some m) = true := by
  simp [Logger.isActivated, hdev, hdebug, methodTruthy, hm, hsub, isBooleanV,
    strictEqFalse]

theorem c3_witness :
    getV [("request.log", JSVal.bool true), ("request", JSVal.bool false)]
      ("request" ++ "." ++ "log") = some (JSVal.bool true)
    ∧ getV [("request.log", JSVal.bool true), ("request", JSVal.bool false)]
        "request" = some (JSVal.bool false)
    ∧ Logger.isActivated
        ⟨true, [], [("request.log", JSVal.bool true), ("request", JSVal.bool false)]⟩
        ⟨"request", true⟩ (some "log") = true :=
  ⟨rfl, rfl,
    c3_sub_rule_true_enables
      ⟨true, [], [("request.log", JSVal.bool true), ("request", JSVal.bool false)]⟩
      ⟨"request", true⟩ "log" rfl rfl (by decide) rfl⟩

/-- C4 counterexample: at the argument list `[null]` the raised failure
is the host TypeError, not an `Error` carrying the space-joined textual
representation of the arguments (which for `null` would be `"null"`). -/
theorem c4_counterexample :
    Logger.error [JSVal.null] = Thrown.typeError
    ∧ Logger.error [JSVal.null] ≠ Thrown.errorMsg "null" := by
  refine ⟨rfl, ?_⟩
  intro h
  cases h

/-- C4 (amended): `error(...args)` never returns normally, and whenever
every argument supports textual conversion the raised failure is an
`Error` whose message is the space-joined textual representations. -/
theorem c4_error_throws_joined (args : List JSVal) (strs : List String)
    (h : Logger.toStrList? args = some strs) :
    Logger.error args = Thrown.errorMsg (String.intercalate " " strs)
    ∧ ∀ u : Unit, Logger.errorRun args ≠ Except.ok u := by
  constructor
  · simp [Logger.error, h]
  · intro u hcontra
    simp [Logger.errorRun] at hcontra

theorem c4_witness :
    Logger.toStrList? [JSVal.str "a", JSVal.str "b"] = some ["a", "b"]
    ∧ Logger.error [JSVal.str "a", JSVal.str "b"] = Thrown.errorMsg "a b" :=
  ⟨rfl, (c4_error_throws_joined [JSVal.str "a", JSVal.str "b"] ["a", "b"] rfl).1⟩

/-- C5: programmatic rule configuration is last-write-wins when the
environment override does not bind the key: configuring a key twice
leaves the second call's value in the stored rules. -/
theorem c5_last_write_wins (g : Global) (k : String) (v1 v2 : JSVal)
    (henv : getV g.envRules k = none) :
    getV ((Logger.configRules [(k, v2)]
      (Logger.configRules [(k, v1)] g)).rules) k = some v2 := by
  simp [Logger.configRules, spread, getV_append, henv, getV]

theorem c5_witness :
    getV ((Logger.initGlobal true []).envRules) "a" = none
    ∧ getV ((Logger.configRules [("a", JSVal.bool false)]
        (Logger.configRules [("a", JSVal.bool true)]
          (Logger.initGlobal true []))).rules) "a" = some (JSVal.bool false) :=
  ⟨rfl, c5_last_write_wins (Logger.initGlobal true []) "a"
    (JSVal.bool true) (JSVal.bool false) rfl⟩

/-- C6: the environment override always takes final precedence: when it
binds a key to true, any later `configRules` call leaves that key
resolving to true in the stored rules. -/
theorem c6_env_override_wins (g : Global) (k : String) (r : Obj)
    (henv : getV g.envRules k = some (JSVal.bool true)) :
    getV ((Logger.configRules r g).rules) k = some (JSVal.bool true) := by
  simp [Logger.configRules, spread, getV_append, henv]

theorem c6_witness :
    getV ((Logger.initGlobal true [("a", JSVal.bool true)]).envRules) "a"
      = some (JSVal.bool true)
    ∧ getV ((Logger.configRules [("a", JSVal.bool false)]
        (Logger.initGlobal true [("a", JSVal.bool true)])).rules) "a"
      = some (JSVal.bool true) :=
  ⟨rfl, c6_env_override_wins (Logger.initGlobal true [("a", JSVal.bool true)])
    "a" [("a", JSVal.bool false)] rfl⟩

/-- C7: no value is simultaneously array-typed and plain-object-typed,
so `table` never takes the fallback-to-`log` branch: it always proxies
the data to the underlying `table` method, gated by the same activation
check as the other pass-through methods. -/
theorem c7_table_never_falls_back (g : Global) (self : Inst) (data : JSVal) :
    (isArray data && isPlainObject data) = false
    ∧ Logger.table g self data = Logger.proxyRun g self "table" [data]
    ∧ Logger.table g self data =
        (if Logger.isActivated g self (some "table")
          then [ConsoleCall.call "table" [data]] else []) := by
  have hguard : (isArray data && isPlainObject data) = false := by
    cases data <;> rfl
  refine ⟨hguard, ?_, ?_⟩
  · simp [Logger.table, hguard]
  · simp [Logger.table, hguard, Logger.proxyRun]

/-- C8: `isActivated` is a deterministic pure function of the tuple
(dev-mode flag, rules mapping, instance debug flag, instance name,
method name): two calls in states agreeing on these inputs return the
same boolean; in this embedding the call takes no mutable state and
returns only the boolean, so it changes nothing. -/
theorem c8_isActivated_deterministic (g1 g2 : Global) (i1 i2 : Inst)
    (m : Option String) (hdev : g1.isDev = g2.isDev)
    (hrules : g1.rules = g2.rules) (hname : i1.name = i2.name)
    (hdebug : i1.debug = i2.debug) :
    Logger.isActivated g1 i1 m = Logger.isActivated g2 i2 m := by
  simp [Logger.isActivated, hdev, hrules, hname, hdebug]

theorem c8_witness :
    (Global.mk true [("x", JSVal.bool true)] [("a", JSVal.bool false)]).isDev
      = (Global.mk true [] [("a", JSVal.bool false)]).isDev
    ∧ (Global.mk true [("x", JSVal.bool true)] [("a", JSVal.bool false)]).rules
      = (Global.mk true [] [("a", JSVal.bool false)]).rules
    ∧ Logger.isActivated
        (Global.mk true [("x", JSVal.bool true)] [("a", JSVal.bool false)])
        ⟨"a", true⟩ (some "log")
      = Logger.isActivated (Global.mk true [] [("a", JSVal.bool false)])
        ⟨"a", true⟩ (some "log") :=
  ⟨rfl, rfl,
    c8_isActivated_deterministic
      (Global.mk true [("x", JSVal.bool true)] [("a", JSVal.bool false)])
      (Global.mk true [] [("a", JSVal.bool false)])
      ⟨"a", true⟩ ⟨"a", true⟩ (some "log") rfl rfl rfl rfl⟩

/-- C9: constructor defaults come from the current static default
options record: after a static `config` call whose patch sets the
default debug flag to false, an instance constructed from a bare
namespace string has debug false and that string as its name; under the
unmodified defaults the same construction yields debug true. -/
theorem c9_defaults_from_static (o : Options) (ns : String) (p : OptPatch)
    (h : p.debug = some false) :
    (Logger.mkLogger (Sum.inl ns) (Logger.config p o)).debug = false
    ∧ (Logger.mkLogger (Sum.inl ns) (Logger.config p o)).name = ns
    ∧ (Logger.mkLogger (Sum.inl ns) Logger.defaultOptions).debug = true := by
  refine ⟨?_, rfl, rfl⟩
  simp [Logger.mkLogger, Logger.config, h]

theorem c9_witness :
    (OptPatch.mk none (some false)).debug = some false
    ∧ (Logger.mkLogger (Sum.inl "request")
        (Logger.config (OptPatch.mk none (some false))
          Logger.defaultOptions)).debug = false :=
  ⟨rfl, (c9_defaults_from_static Logger.defaultOptions "request"
    (OptPatch.mk none (some false)) rfl).1⟩

/-- C10: when some argument does not support textual conversion
(`null` or `undefined`), the message construction in `error` fails
before the intended `Error` is built, so the raised failure is the host
TypeError, a different kind that carries no joined message. -/
theorem c10_unconvertible_arg_typeerror (args : List JSVal)
    (h : ∃ a ∈ args, toStr? a = none) :
    Logger.error args = Thrown.typeError := by
  obtain ⟨a, ha, hnone⟩ := h
  have hlist : Logger.toStrList? args = none :=
    toStrList_eq_none args a ha hnone
  simp [Logger.error, hlist]

theorem c10_witness :
    toStr? JSVal.null = none
    ∧ Logger.error [JSVal.null] = Thrown.typeError :=
  ⟨rfl, c10_unconvertible_arg_typeerror [JSVal.null]
    ⟨JSVal.null, List.mem_singleton.mpr rfl, rfl⟩⟩
